import Mathlib

/-!
Shallow embedding of `src/yield_curve_analyzer.py` (Bond Yield Curve
Analyzer).  Yields are modelled as rationals (the Python floats), dates as
pandas timestamps: a day count since the epoch together with the number of
microseconds elapsed within that day.  The numpy global random generator is
modelled as a (seed, position) state together with an arbitrary draw
function `gauss : seed → position → value` standing for the seeded normal
sampler; `np.random.seed` resets the state, `np.random.normal` consumes
successive positions.
-/

set_option autoImplicit false

namespace YieldCurve

/-- A pandas timestamp: days since the epoch plus microseconds within the
day.  `datetime.today()` produces a timestamp whose `us` component is the
current time of day (almost never `0`). -/
structure Timestamp where
  day : Int
  us : Nat
deriving DecidableEq

/-- One row of the analyzer's DataFrame: the `Date` index value, the four
yield columns, and the derived `2Y_10Y_Spread` column, which is absent
(`none`) until `analyze_inversions` assigns it. -/
structure Record where
  date : Timestamp
  y3M : ℚ
  y2Y : ℚ
  y10Y : ℚ
  y30Y : ℚ
  spread : Option ℚ
deriving DecidableEq

/-- The state of numpy's global random generator: the active seed and how
many draws have been consumed since seeding. -/
structure NpState where
  seed : Nat
  pos : Nat
deriving DecidableEq

/-- `np.random.seed s`: replaces the global generator state, discarding the
previous one. -/
def npSeed (_g : NpState) (s : Nat) : NpState := ⟨s, 0⟩

/-- `np.random.normal(0, 0.1, n)` under draw function `gauss`: returns the
next `n` values of the seeded stream and advances the state. -/
def npNormal (gauss : Nat → Nat → ℚ) (g : NpState) (n : Nat) : List ℚ × NpState :=
  ((List.range n).map fun k => gauss g.seed (g.pos + k), ⟨g.seed, g.pos + n⟩)

/-- `pd.date_range(start, stop, freq='D')` for timestamps sharing the same
time of day (as produced in `fetch_treasury_data`, where
`start = stop - timedelta(days=period_days)`): one timestamp per calendar
day from `start` to `stop` inclusive, empty when `start` is after `stop`. -/
def date_range (start stop : Timestamp) : List Timestamp :=
  if start.day ≤ stop.day then
    (List.range ((stop.day - start.day).toNat + 1)).map fun (k : Nat) =>
      ⟨start.day + (k : Int), start.us⟩
  else []

/-- Running cumulative sum with accumulator, `np.cumsum`. -/
def cumsumFrom (acc : ℚ) : List ℚ → List ℚ
  | [] => []
  | x :: xs => (acc + x) :: cumsumFrom (acc + x) xs

/-- `base + np.cumsum(variations * 0.01)` from the generator loop. -/
def mkYields (base : ℚ) (variations : List ℚ) : List ℚ :=
  (cumsumFrom 0 (variations.map fun v => v * (1 / 100))).map fun c => base + c

/-- Assembles the DataFrame rows from the date index and the four yield
columns (`pd.DataFrame(yield_curves, index=dates)`); all five lists have
equal length in `fetch_treasury_data`. -/
def mkRecords : List Timestamp → List ℚ → List ℚ → List ℚ → List ℚ → List Record
  | d :: ds, a :: xs, b :: ys, c :: zs, e :: ws =>
      { date := d, y3M := a, y2Y := b, y10Y := c, y30Y := e, spread := none }
        :: mkRecords ds xs ys zs ws
  | _, _, _, _, _ => []

/-- The fixed maturities `[0.25, 2, 10, 30]` returned alongside the data. -/
def maturities : List ℚ := [1 / 4, 2, 10, 30]

/-- Result of `fetch_treasury_data`: the DataFrame, the maturity list, and
the global generator state after the four draws. -/
structure FetchResult where
  df : List Record
  mats : List ℚ
  rng : NpState

/-- `fetch_treasury_data(period_days)` from the source: takes the current
timestamp (`datetime.today()`), seeds the global generator with 42, builds
the daily date index over `[today - period_days, today]`, and for each of
the four maturities draws one normal perturbation per date and accumulates
it onto the fixed base yields `[2.0, 2.5, 3.2, 3.5]`. -/
def fetch_treasury_data (gauss : Nat → Nat → ℚ) (g : NpState) (today : Timestamp)
    (period_days : Int) : FetchResult :=
  let end_date := today
  let start_date : Timestamp := ⟨end_date.day - period_days, end_date.us⟩
  let g0 := npSeed g 42
  let dates := date_range start_date end_date
  let n := dates.length
  let d0 := npNormal gauss g0 n
  let d1 := npNormal gauss d0.2 n
  let d2 := npNormal gauss d1.2 n
  let d3 := npNormal gauss d2.2 n
  let df := mkRecords dates (mkYields 2 d0.1) (mkYields (5 / 2) d1.1)
      (mkYields (16 / 5) d2.1) (mkYields (7 / 2) d3.1)
  ⟨df, maturities, d3.2⟩

/-- The metric set built by `calculate_curve_metrics`. -/
structure Metrics where
  slope : ℚ
  steepness : ℚ
  short_rate : ℚ
  long_rate : ℚ
  inversion_check : String
deriving DecidableEq

/-- The failure of `calculate_curve_metrics` on an empty series (in the
Python, `df.iloc[-1]` raises on an empty DataFrame; the spec's error
taxonomy calls this `EmptySeriesError`). -/
inductive EmptySeriesError
  | emptySeries
deriving DecidableEq

/-- `calculate_curve_metrics(df)`: reads the last row (`df.iloc[-1]`) and
derives slope, steepness, short/long rates and the inversion flag. -/
def calculate_curve_metrics (df : List Record) : Except EmptySeriesError Metrics :=
  match df.getLast? with
  | none => .error .emptySeries
  | some latest => .ok
      { slope := latest.y10Y - latest.y2Y
        steepness := latest.y30Y - latest.y3M
        short_rate := latest.y3M
        long_rate := latest.y30Y
        inversion_check := if latest.y2Y > latest.y10Y then "Inverted" else "Normal" }

/-- `df['2Y_10Y_Spread'] = df['10Y'] - df['2Y']`: assigns the derived
spread column on every row, overwriting any previous value. -/
def addSpread (df : List Record) : List Record :=
  df.map fun r => { r with spread := some (r.y10Y - r.y2Y) }

/-- The inversion summary printed by `analyze_inversions`; the last two
fields are absent when no record is inverted. -/
structure InversionSummary where
  inverted_days : Nat
  inverted_fraction : ℚ
  most_recent_inversion : Option Timestamp
  deepest_inversion : Option ℚ
deriving DecidableEq

/-- The Python `ZeroDivisionError` raised by
`len(inversions)/len(df)` when the DataFrame is empty. -/
inductive ZeroDivisionError
  | divByZero
deriving DecidableEq

/-- `analyze_inversions(df)`: mutates `df` by assigning the spread column,
filters the rows with negative spread, then reports count, percentage of
time inverted (here as a fraction of total days), most recent inversion
date and deepest inversion.  The division by `len(df)` happens before the
optional fields are read, so an empty DataFrame raises `ZeroDivisionError`
after the (empty) spread column has already been assigned; the mutated
DataFrame is returned as the first component in either case. -/
def analyze_inversions (df : List Record) :
    List Record × Except ZeroDivisionError InversionSummary :=
  let df' := addSpread df
  let inversions := df'.filter fun r => decide (r.spread.getD 0 < 0)
  if df'.length = 0 then
    (df', .error .divByZero)
  else
    (df', .ok
      { inverted_days := inversions.length
        inverted_fraction := (inversions.length : ℚ) / (df'.length : ℚ)
        most_recent_inversion := inversions.getLast?.map Record.date
        deepest_inversion := (inversions.map fun r => r.spread.getD 0).min? })

/-- Gregorian civil date `(year, month, day)` of a day count since the
epoch 1970-01-01 (the standard days-to-civil conversion used by datetime
libraries). -/
def civil (z0 : Int) : Int × Int × Int :=
  let z := z0 + 719468
  let era := Int.fdiv z 146097
  let doe := z - era * 146097
  let yoe := Int.fdiv (doe - Int.fdiv doe 1460 + Int.fdiv doe 36524 - Int.fdiv doe 146096) 365
  let y := yoe + era * 400
  let doy := doe - (365 * yoe + Int.fdiv yoe 4 - Int.fdiv yoe 100)
  let mp := Int.fdiv (5 * doy + 2) 153
  let d := doy - Int.fdiv (153 * mp + 2) 5 + 1
  let m := mp + (if mp < 10 then 3 else -9)
  (y + (if m ≤ 2 then 1 else 0), m, d)

/-- Decimal rendering of a natural number, zero-padded to `width` digits. -/
def pad (width : Nat) (n : Nat) : String :=
  let s := toString n
  String.mk (List.replicate (width - s.length) '0') ++ s

/-- `YYYY-MM-DD` rendering of a day count. -/
def isoDate (day : Int) : String :=
  pad 4 (civil day).1.toNat ++ "-" ++ pad 2 (civil day).2.1.toNat ++ "-"
    ++ pad 2 (civil day).2.2.toNat

/-- `HH:MM:SS[.ffffff]` rendering of a within-day microsecond count, as a
pandas `Timestamp` prints its time component (microseconds shown only when
nonzero). -/
def timeOfDayStr (us : Nat) : String :=
  let s := us / 1000000
  let micro := us % 1000000
  pad 2 (s / 3600) ++ ":" ++ pad 2 (s % 3600 / 60) ++ ":" ++ pad 2 (s % 60)
    ++ (if micro = 0 then "" else "." ++ pad 6 micro)

/-- Whether pandas formats the `DatetimeIndex` as bare dates in
`to_csv`: true exactly when every timestamp is at midnight
(`DatetimeIndex._is_dates_only`). -/
def datesOnly (df : List Record) : Bool :=
  df.all fun r => r.date.us == 0

/-- The `Date` index cell written by `to_csv` for one row: the bare
`YYYY-MM-DD` form when the whole index is midnight-only, otherwise the full
timestamp `YYYY-MM-DD HH:MM:SS[.ffffff]`. -/
def dateField (dOnly : Bool) (t : Timestamp) : String :=
  if dOnly then isoDate t.day else isoDate t.day ++ " " ++ timeOfDayStr t.us

/-- The header row written by `to_csv` for `df[['3M','2Y','10Y','30Y']]`
with index name `Date`. -/
def csvHeader : String := "Date,3M,2Y,10Y,30Y"

/-- `df[['3M','2Y','10Y','30Y']].to_csv(...)` from `main`, as the list of
lines: header, then one comma-delimited row per record, the yields rendered
by the float formatter `showQ`. -/
def to_csv (showQ : ℚ → String) (df : List Record) : List String :=
  csvHeader :: df.map fun r =>
    dateField (datesOnly df) r.date ++ "," ++ showQ r.y3M ++ "," ++ showQ r.y2Y
      ++ "," ++ showQ r.y10Y ++ "," ++ showQ r.y30Y

/-- The claim's `YYYY-MM-DD` date format: ten characters, digits except for
dashes at positions 4 and 7. -/
def isYMD (s : String) : Bool :=
  let cs := s.toList
  cs.length == 10 && (List.range 10).all fun i =>
    let c := cs.getD i ' '
    if i == 4 || i == 7 then c == '-' else c.isDigit

/-- The `Date` cell of a rendered CSV line: everything before the first
comma. -/
def dateFieldOfLine (line : String) : String :=
  String.mk (line.toList.takeWhile fun c => c != ',')

/-- A sample non-inverted record (2Y below 10Y) used in witnesses. -/
def rec0 : Record :=
  { date := ⟨0, 0⟩, y3M := 2, y2Y := 5 / 2, y10Y := 16 / 5, y30Y := 7 / 2, spread := none }

/-- A sample inverted record (2Y above 10Y) used in witnesses. -/
def recInv : Record :=
  { date := ⟨5, 0⟩, y3M := 2, y2Y := 3, y10Y := 5 / 2, y30Y := 7 / 2, spread := none }

/-! ### Helper lemmas -/

theorem addSpread_length (df : List Record) : (addSpread df).length = df.length := by
  simp [addSpread]

theorem analyze_inversions_fst (df : List Record) :
    (analyze_inversions df).1 = addSpread df := by
  simp only [analyze_inversions]
  split <;> rfl

theorem addSpread_idem (df : List Record) : addSpread (addSpread df) = addSpread df := by
  simp only [addSpread, List.map_map]
  rfl

theorem addSpread_filter (df : List Record) :
    (addSpread df).filter (fun r => decide (r.spread.getD 0 < 0))
      = (df.filter fun r => decide (r.y10Y - r.y2Y < 0)).map
          fun r => { r with spread := some (r.y10Y - r.y2Y) } := by
  induction df with
  | nil => rfl
  | cons a l ih =>
    by_cases h : a.y10Y - a.y2Y < 0 <;>
      simp only [addSpread, List.map_cons, List.filter_cons] at ih ⊢ <;>
      simp [h, ih]

/-! ### Claims -/

/-- C1: for every non-empty `YieldSeries`, `calculate_curve_metrics`
returns values computed from the final record only: slope = 10Y − 2Y,
steepness = 30Y − 3M, short rate = 3M, long rate = 30Y, and the inversion
flag is "Inverted" exactly when 2Y > 10Y on that final record, else
"Normal". -/
theorem claim_C1 (df : List Record) (last : Record) (h : df.getLast? = some last) :
    calculate_curve_metrics df = Except.ok
      { slope := last.y10Y - last.y2Y
        steepness := last.y30Y - last.y3M
        short_rate := last.y3M
        long_rate := last.y30Y
        inversion_check := if last.y2Y > last.y10Y then "Inverted" else "Normal" } := by
  simp [calculate_curve_metrics, h]

/-- Witness for C1 at a concrete two-record series whose final record is
inverted. -/
theorem claim_C1_witness :
    calculate_curve_metrics [rec0, recInv] = Except.ok
      { slope := recInv.y10Y - recInv.y2Y
        steepness := recInv.y30Y - recInv.y3M
        short_rate := recInv.y3M
        long_rate := recInv.y30Y
        inversion_check := if recInv.y2Y > recInv.y10Y then "Inverted" else "Normal" } :=
  claim_C1 [rec0, recInv] recInv rfl

/-- C6: `calculate_curve_metrics` fails (with the empty-series error)
exactly on the empty series, and returns a metric set for every non-empty
series. -/
theorem claim_C6 (df : List Record) :
    (calculate_curve_metrics df = Except.error EmptySeriesError.emptySeries ↔ df = []) ∧
    (df ≠ [] → ∃ m, calculate_curve_metrics df = Except.ok m) := by
  constructor
  · cases df with
    | nil => simp [calculate_curve_metrics]
    | cons a l =>
      have h := List.getLast?_eq_getLast (a :: l) (by simp)
      simp [calculate_curve_metrics, h]
  · intro h
    obtain ⟨x, hx⟩ : ∃ x, df.getLast? = some x := by
      cases df with
      | nil => exact absurd rfl h
      | cons a l => exact ⟨_, List.getLast?_eq_getLast _ (by simp)⟩
    exact ⟨{ slope := x.y10Y - x.y2Y
             steepness := x.y30Y - x.y3M
             short_rate := x.y3M
             long_rate := x.y30Y
             inversion_check := if x.y2Y > x.y10Y then "Inverted" else "Normal" },
           by simp [calculate_curve_metrics, hx]⟩

/-- Witness for C6: the one-record series yields a metric set. -/
theorem claim_C6_witness : ∃ m, calculate_curve_metrics [rec0] = Except.ok m :=
  (claim_C6 [rec0]).2 (by simp)

/-- C7: for a fixed draw function (the seeded sampler semantics), a fixed
current timestamp and a fixed window length, `fetch_treasury_data` yields
identical results regardless of the prior global generator state, because
it reseeds with 42 — two runs are identical in every date and yield. -/
theorem claim_C7 (gauss : Nat → Nat → ℚ) (g1 g2 : NpState) (today : Timestamp)
    (w : Int) :
    fetch_treasury_data gauss g1 today w = fetch_treasury_data gauss g2 today w := rfl

/-- C9: `analyze_inversions` changes the series only by assigning the
derived spread column: every record's date and four yields are unchanged,
and the record count is unchanged. -/
theorem claim_C9 (df : List Record) :
    ((analyze_inversions df).1.map fun r => (r.date, r.y3M, r.y2Y, r.y10Y, r.y30Y))
        = (df.map fun r => (r.date, r.y3M, r.y2Y, r.y10Y, r.y30Y)) ∧
      (analyze_inversions df).1.length = df.length := by
  rw [analyze_inversions_fst]
  constructor
  · simp only [addSpread, List.map_map]
    rfl
  · exact addSpread_length df

/-- C10: applying `analyze_inversions` a second time to the augmented
series returns the same series (spread column included) and the same
summary, because the spread is recomputed from the unchanged 10Y and 2Y
columns. -/
theorem claim_C10 (df : List Record) (_h : df ≠ []) :
    analyze_inversions (analyze_inversions df).1 = analyze_inversions df := by
  rw [analyze_inversions_fst]
  simp only [analyze_inversions]
  rw [addSpread_idem]

/-- Witness for C10 at a concrete two-record series. -/
theorem claim_C10_witness :
    analyze_inversions (analyze_inversions [rec0, recInv]).1
      = analyze_inversions [rec0, recInv] :=
  claim_C10 [rec0, recInv] (by simp)

/-- C4 counterexample: on the empty series `analyze_inversions` raises the
division error (`len(inversions)/len(df)` with `len(df) = 0`), rather than
returning the `0 inverted, fraction 0` convention the claim states. -/
theorem claim_C4_counterexample :
    (analyze_inversions ([] : List Record)).2
      = Except.error ZeroDivisionError.divByZero := rfl

/-- C4 (amended): `analyze_inversions` fails with a `ZeroDivisionError`
exactly when the series is empty; no summary is produced in that case. -/
theorem claim_C4 (df : List Record) :
    (analyze_inversions df).2 = Except.error ZeroDivisionError.divByZero ↔ df = [] := by
  cases df with
  | nil => exact iff_of_true rfl rfl
  | cons a l =>
    have hne : (addSpread (a :: l)).length ≠ 0 := by simp [addSpread_length]
    apply iff_of_false
    · simp only [analyze_inversions]
      rw [if_neg hne]
      simp
    · simp

/-- C2: for every non-empty series, `analyze_inversions` reports the count
of records whose recomputed spread `10Y − 2Y` is strictly negative (spread
exactly 0 is not counted), the date of the latest such record (absent when
none), and the minimum spread over those records (absent when none). -/
theorem claim_C2 (df : List Record) (h : df ≠ []) :
    ∃ s, (analyze_inversions df).2 = Except.ok s ∧
      s.inverted_days = (df.filter fun r => decide (r.y10Y - r.y2Y < 0)).length ∧
      s.most_recent_inversion
        = ((df.filter fun r => decide (r.y10Y - r.y2Y < 0)).getLast?).map Record.date ∧
      s.deepest_inversion
        = ((df.filter fun r => decide (r.y10Y - r.y2Y < 0)).map
            fun r => r.y10Y - r.y2Y).min? := by
  have hne : (addSpread df).length ≠ 0 := by
    rw [addSpread_length]
    exact fun hc => h (List.length_eq_zero.mp hc)
  have hok : (analyze_inversions df).2 = Except.ok
      { inverted_days := ((addSpread df).filter fun r => decide (r.spread.getD 0 < 0)).length
        inverted_fraction :=
          ((((addSpread df).filter fun r => decide (r.spread.getD 0 < 0)).length : ℚ)
            / ((addSpread df).length : ℚ))
        most_recent_inversion :=
          (((addSpread df).filter fun r => decide (r.spread.getD 0 < 0)).getLast?).map
            Record.date
        deepest_inversion :=
          (((addSpread df).filter fun r => decide (r.spread.getD 0 < 0)).map
            fun r => r.spread.getD 0).min? } := by
    simp only [analyze_inversions]
    rw [if_neg hne]
  refine ⟨_, hok, ?_, ?_, ?_⟩ <;> dsimp only
  · rw [addSpread_filter, List.length_map]
  · rw [addSpread_filter, List.getLast?_map, Option.map_map]
    rfl
  · rw [addSpread_filter, List.map_map]
    rfl

/-- Witness for C2 at a concrete two-record series with one inversion. -/
theorem claim_C2_witness :
    ∃ s, (analyze_inversions [rec0, recInv]).2 = Except.ok s ∧
      s.inverted_days
        = ([rec0, recInv].filter fun r => decide (r.y10Y - r.y2Y < 0)).length ∧
      s.most_recent_inversion
        = (([rec0, recInv].filter fun r => decide (r.y10Y - r.y2Y < 0)).getLast?).map
            Record.date ∧
      s.deepest_inversion
        = (([rec0, recInv].filter fun r => decide (r.y10Y - r.y2Y < 0)).map
            fun r => r.y10Y - r.y2Y).min? :=
  claim_C2 [rec0, recInv] (by simp)

theorem cumsumFrom_length (a : ℚ) (l : List ℚ) : (cumsumFrom a l).length = l.length := by
  induction l generalizing a with
  | nil => rfl
  | cons x xs ih => simp [cumsumFrom, ih]

theorem mkYields_length (b : ℚ) (v : List ℚ) : (mkYields b v).length = v.length := by
  simp [mkYields, cumsumFrom_length]

theorem npNormal_fst_length (gauss : Nat → Nat → ℚ) (g : NpState) (n : Nat) :
    ((npNormal gauss g n).1).length = n := by
  simp [npNormal]

theorem mkRecords_map_date (ds : List Timestamp) :
    ∀ xs ys zs ws : List ℚ,
      xs.length = ds.length → ys.length = ds.length → zs.length = ds.length →
      ws.length = ds.length →
      (mkRecords ds xs ys zs ws).map Record.date = ds := by
  induction ds with
  | nil =>
    intro xs ys zs ws _ _ _ _
    cases xs <;> cases ys <;> cases zs <;> cases ws <;> rfl
  | cons d ds ih =>
    intro xs ys zs ws h1 h2 h3 h4
    match xs, ys, zs, ws with
    | [], _, _, _ => simp at h1
    | _ :: _, [], _, _ => simp at h2
    | _ :: _, _ :: _, [], _ => simp at h3
    | _ :: _, _ :: _, _ :: _, [] => simp at h4
    | x :: xs, y :: ys, z :: zs, w :: ws =>
      simp only [mkRecords, List.map_cons]
      rw [ih xs ys zs ws (by simpa using h1) (by simpa using h2) (by simpa using h3)
        (by simpa using h4)]

theorem date_range_eq (t : Timestamp) (w : Int) (h : 0 ≤ w) :
    date_range ⟨t.day - w, t.us⟩ t
      = (List.range (w.toNat + 1)).map
          fun (k : Nat) => (⟨t.day - w + (k : Int), t.us⟩ : Timestamp) := by
  have hle : t.day - w ≤ t.day := by omega
  have harith : (t.day - (t.day - w)).toNat = w.toNat := by omega
  simp only [date_range]
  rw [if_pos hle, harith]

theorem fetch_df_map_date (gauss : Nat → Nat → ℚ) (g : NpState) (t : Timestamp)
    (w : Int) (h : 0 ≤ w) :
    (fetch_treasury_data gauss g t w).df.map Record.date
      = (List.range (w.toNat + 1)).map
          fun (k : Nat) => (⟨t.day - w + (k : Int), t.us⟩ : Timestamp) := by
  simp only [fetch_treasury_data, npSeed]
  rw [date_range_eq t w h]
  apply mkRecords_map_date <;>
    simp [mkYields_length, npNormal_fst_length]

theorem fetch_df_length (gauss : Nat → Nat → ℚ) (g : NpState) (t : Timestamp)
    (w : Int) (h : 0 ≤ w) :
    (fetch_treasury_data gauss g t w).df.length = w.toNat + 1 := by
  have hm := congrArg List.length (fetch_df_map_date gauss g t w h)
  simpa using hm

/-- C3: for every non-negative window length `w`, the generated series has
exactly `w + 1` records, its dates are the consecutive calendar days from
`today − w` to `today` (strictly increasing, no gaps), and `w = 0` yields
the single record dated today. -/
theorem claim_C3 (gauss : Nat → Nat → ℚ) (g : NpState) (today : Timestamp)
    (w : Int) (h : 0 ≤ w) :
    (fetch_treasury_data gauss g today w).df.length = w.toNat + 1 ∧
    ((fetch_treasury_data gauss g today w).df.map fun r => r.date.day)
      = ((List.range (w.toNat + 1)).map fun (k : Nat) => today.day - w + (k : Int)) ∧
    ((fetch_treasury_data gauss g today w).df.head?.map fun r => r.date.day)
      = some (today.day - w) ∧
    ((fetch_treasury_data gauss g today w).df.getLast?.map fun r => r.date.day)
      = some today.day ∧
    (fetch_treasury_data gauss g today w).df.Chain'
      (fun a b => a.date.day + 1 = b.date.day) := by
  have hmap := fetch_df_map_date gauss g today w h
  have hday : ((fetch_treasury_data gauss g today w).df.map fun r => r.date.day)
      = ((List.range (w.toNat + 1)).map fun (k : Nat) => today.day - w + (k : Int)) := by
    rw [show (fun r : Record => r.date.day) = (Timestamp.day ∘ Record.date) from rfl,
      ← List.map_map, hmap, List.map_map]
    rfl
  refine ⟨fetch_df_length gauss g today w h, hday, ?_, ?_, ?_⟩
  · rw [← List.head?_map, hday, List.range_succ_eq_map]
    simp
  · rw [← List.getLast?_map, hday, List.range_succ, List.map_append]
    simp only [List.map_cons, List.map_nil]
    rw [List.getLast?_concat, Int.toNat_of_nonneg h]
    simp only [Option.some.injEq]
    omega
  · refine (List.chain'_map (R := fun a b : Int => a + 1 = b)
      (fun r : Record => r.date.day)).mp ?_
    rw [hday, List.chain'_map]
    refine (List.chain'_range_succ _ w.toNat).mpr ?_
    intro m _
    push_cast
    ring

/-- Witness for C3 at window length 2: three records. -/
theorem claim_C3_witness :
    (fetch_treasury_data (fun _ _ => 0) ⟨0, 0⟩ ⟨0, 0⟩ 2).df.length = 3 :=
  (claim_C3 (fun _ _ => 0) ⟨0, 0⟩ ⟨0, 0⟩ 2 (by decide)).1

/-- C5 counterexample: the generator performs no input validation — window
length 0 returns a one-record series and window length −1 returns an empty
series, in both cases without any error. -/
theorem claim_C5_counterexample :
    (fetch_treasury_data (fun _ _ => 0) ⟨0, 0⟩ ⟨0, 0⟩ 0).df.length = 1 ∧
    (fetch_treasury_data (fun _ _ => 0) ⟨0, 0⟩ ⟨0, 0⟩ (-1)).df = [] := by
  constructor <;> rfl

/-- C5 (amended): `fetch_treasury_data` never fails and rejects nothing:
a window length `w ≥ 0` produces `w + 1` records and a negative window
length produces an empty series. -/
theorem claim_C5 (gauss : Nat → Nat → ℚ) (g : NpState) (today : Timestamp) (w : Int) :
    (fetch_treasury_data gauss g today w).df.length
      = if 0 ≤ w then w.toNat + 1 else 0 := by
  by_cases h : 0 ≤ w
  · rw [if_pos h]
    exact fetch_df_length gauss g today w h
  · rw [if_neg h]
    have hgt : ¬ (today.day - w ≤ today.day) := by omega
    simp only [fetch_treasury_data, npSeed, date_range]
    rw [if_neg hgt]
    rfl

/-- A sample record stamped at 10:20:30.123456 on 2023-12-31, used in the
C8 witness. -/
def recC8 : Record :=
  { date := ⟨19722, 37230123456⟩, y3M := 2, y2Y := 5 / 2, y10Y := 16 / 5, y30Y := 7 / 2,
    spread := none }

/-- A one-record series whose timestamp is not midnight. -/
def dfC8 : List Record := [recC8]

/-- C8 counterexample: running the generator at a time of day of
10:20:30.123456 (as `datetime.today()` returns) and exporting, the first
data row's date cell is the full timestamp `2023-12-31 10:20:30.123456`,
which is not in `YYYY-MM-DD` form. -/
theorem claim_C8_counterexample :
    dateFieldOfLine ((to_csv (fun _ => "0")
        ((fetch_treasury_data (fun _ _ => 0) ⟨0, 0⟩ ⟨19723, 37230123456⟩ 1).df)).getD 1 "")
      = "2023-12-31 10:20:30.123456" ∧
    isYMD (dateFieldOfLine ((to_csv (fun _ => "0")
        ((fetch_treasury_data (fun _ _ => 0) ⟨0, 0⟩ ⟨19723, 37230123456⟩ 1).df)).getD 1 ""))
      = false := by
  constructor <;> rfl

/-- C8 (amended): the export is comma-delimited with header row
`Date,3M,2Y,10Y,30Y` and exactly one data row per record, each row the date
cell followed by the four yields rendered by the float formatter; the date
cell is the bare `YYYY-MM-DD` date only when every timestamp in the series
is exactly midnight, and otherwise is the ISO date followed by a space and
the time of day `HH:MM:SS[.ffffff]`. -/
theorem claim_C8 (showQ : ℚ → String) (df : List Record) :
    (to_csv showQ df).head? = some "Date,3M,2Y,10Y,30Y" ∧
    (to_csv showQ df).length = df.length + 1 ∧
    (to_csv showQ df).drop 1
      = (df.map fun r => dateField (datesOnly df) r.date ++ "," ++ showQ r.y3M ++ ","
          ++ showQ r.y2Y ++ "," ++ showQ r.y10Y ++ "," ++ showQ r.y30Y) ∧
    (datesOnly df = true →
      ∀ r ∈ df, dateField (datesOnly df) r.date = isoDate r.date.day) ∧
    (datesOnly df = false →
      ∀ r ∈ df, dateField (datesOnly df) r.date
        = isoDate r.date.day ++ " " ++ timeOfDayStr r.date.us) := by
  refine ⟨rfl, by simp [to_csv], rfl, ?_, ?_⟩
  · intro hd r _
    rw [hd]
    simp [dateField]
  · intro hd r _
    rw [hd]
    simp [dateField]

/-- Witness for C8 on a non-midnight one-record series: the date cell
carries the time of day. -/
theorem claim_C8_witness :
    dateField (datesOnly dfC8) recC8.date
      = isoDate recC8.date.day ++ " " ++ timeOfDayStr recC8.date.us :=
  (claim_C8 (fun _ => "0") dfC8).2.2.2.2 rfl recC8 (by simp [dfC8])

end YieldCurve
